import Mathlib

/-!
Verification of the APO Quantum Logos client core: the deterministic
text-fingerprinting engine (`calculateQuantumSignature`), the offline
analysis path (`offlineAnalysis`), the connectivity-aware orchestrator
(`analyzeConsciousness`, `checkAPIConnection`) and the metrics refresh
(`loadSustainabilityMetrics`), shallowly embedded from the JavaScript
source.

JavaScript numbers are IEEE-754 binary64 values.  Every finite double is a
rational, so a double is modelled as `Option ℚ`: `some q` is the finite
double of exact value `q`, and `none` collapses the non-finite values
(`Infinity`, `-Infinity`, `NaN`).  This collapse is observationally
faithful for this program: the only operations the program applies to a
possibly non-finite number are further arithmetic (which keeps non-finite
values non-finite) and the `ToInt32`/`ToUint32` coercions, which send every
non-finite value to `0`.  Each arithmetic operation rounds its exact
rational result to the nearest representable binary64 value
(round-to-nearest, ties-to-even), exactly as IEEE-754 prescribes.
-/

namespace APOQuantumLogos

/- Batteries marks the `Rat` field operations `@[irreducible]`, which
stops `decide` from evaluating the embedding; re-open them for this
development (the kernel ignores reducibility either way). -/
attribute [local semireducible] Rat.mul Rat.add Rat.sub Rat.inv

set_option maxRecDepth 16384

/-- Fuel-driven floor of the base-2 logarithm on naturals, written with
structural recursion so the kernel can evaluate it; agrees with
`Nat.log2` whenever the fuel bounds the bit length of the argument. -/
def log2Fuel : ℕ → ℕ → ℕ
  | 0, _ => 0
  | fuel + 1, n => if n < 2 then 0 else log2Fuel fuel (n / 2) + 1

/-- The power `2 ^ e` in `ℚ` for an integer exponent, written over
kernel-friendly natural powers. -/
def pow2 (e : ℤ) : ℚ :=
  match e with
  | Int.ofNat n => ((2 ^ n : ℕ) : ℚ)
  | Int.negSucc n => 1 / ((2 ^ (n + 1) : ℕ) : ℚ)

/-- Floor of the base-2 logarithm of a positive rational (arbitrary on
nonpositive inputs, which never occur at use sites).  The fuel `4096`
covers every numerator and denominator a binary64 computation can
produce (all below `2 ^ 2200`). -/
def floorLog2 (q : ℚ) : ℤ :=
  let e0 : ℤ := (log2Fuel 4096 q.num.natAbs : ℤ) - (log2Fuel 4096 q.den : ℤ)
  if q < pow2 e0 then e0 - 1 else e0

/-- Round a rational to the nearest integer, ties to the even integer
(the IEEE-754 default rounding applied to a scaled significand). -/
def roundHalfEven (m : ℚ) : ℤ :=
  let f := ⌊m⌋
  let frac := m - f
  if frac < 1/2 then f
  else if 1/2 < frac then f + 1
  else if f % 2 = 0 then f else f + 1

/-- Round a positive rational to the nearest IEEE-754 binary64 value
(53-bit significand, subnormal granularity below `2 ^ (-1022)`), returning
`none` when the rounded result overflows to infinity. -/
def fpRoundPos (q : ℚ) : Option ℚ :=
  let e : ℤ := max (floorLog2 q) (-1022)
  let s : ℚ := pow2 (e - 52)
  let r : ℚ := (roundHalfEven (q / s) : ℤ) * s
  if pow2 1024 ≤ r then none else some r

/-- Round an exact rational to the nearest IEEE-754 binary64 value;
`none` means the result is not finite. -/
def fpRound (q : ℚ) : Option ℚ :=
  if q = 0 then some 0
  else if 0 < q then fpRoundPos q
  else (fpRoundPos (-q)).map (fun x => -x)

/-- JavaScript double multiplication: exact product, then binary64
rounding; any non-finite operand gives a non-finite result. -/
def fpMul (x y : Option ℚ) : Option ℚ :=
  match x, y with
  | some a, some b => fpRound (a * b)
  | _, _ => none

/-- JavaScript double addition: exact sum, then binary64 rounding. -/
def fpAdd (x y : Option ℚ) : Option ℚ :=
  match x, y with
  | some a, some b => fpRound (a + b)
  | _, _ => none

/-- JavaScript double division: exact quotient, then binary64 rounding;
division by zero is non-finite. -/
def fpDiv (x y : Option ℚ) : Option ℚ :=
  match x, y with
  | some a, some b => if b = 0 then none else fpRound (a / b)
  | _, _ => none

/-- Truncation toward zero, as in the ToInt32/ToUint32 coercions. -/
def jsTrunc (q : ℚ) : ℤ :=
  if 0 ≤ q then ⌊q⌋ else -⌊-q⌋

/-- JavaScript `x >>> 0` (ToUint32): non-finite values go to `0`; finite
values are truncated toward zero and reduced modulo `2 ^ 32`. The result
is always a natural number below `2 ^ 32`. -/
def toUint32 (x : Option ℚ) : ℕ :=
  match x with
  | none => 0
  | some q => ((jsTrunc q) % (2 ^ 32 : ℤ)).toNat

/-- Reinterpret an unsigned 32-bit pattern as the signed 32-bit value
that JavaScript ToInt32 produces. -/
def int32OfBits (u : ℕ) : ℤ :=
  if u < 2 ^ 31 then (u : ℤ) else (u : ℤ) - 2 ^ 32

/-- Source: `isVowel(charCode)` returns whether
`String.fromCharCode(charCode).toLowerCase()` is one of `a e i o u`.
Over UTF-16 code units (the only values `charCodeAt` produces) exactly
the ten ASCII vowel code units satisfy this; code points above `0xFFFF`
never reach the function. -/
def isVowel (c : ℕ) : Bool :=
  c = 65 || c = 69 || c = 73 || c = 79 || c = 85 ||
  c = 97 || c = 101 || c = 105 || c = 111 || c = 117

/-- Source: the `switch (character % 9)` table of Solfeggio constants in
`calculateQuantumSignature`.  A `switch` with no matching case adds
nothing, hence the `0` default (unreachable, since the argument is a
remainder modulo 9). -/
def solfeggioBonus (r : ℕ) : ℕ :=
  match r with
  | 0 => 174
  | 1 => 285
  | 2 => 396
  | 3 => 417
  | 4 => 528
  | 5 => 639
  | 6 => 741
  | 7 => 852
  | 8 => 963
  | _ => 0

/-- The exact value of the binary64 double written `1.618` in the source
(`consciousnessModulator *= 1.618`). -/
def dbl1618 : ℚ := 7286824197085463 / 4503599627370496

/-- The exact value of the binary64 double written `0.8` in the source. -/
def dbl08 : ℚ := 3602879701896397 / 4503599627370496

/-- The exact value of the binary64 double written `0.1` in the source. -/
def dbl01 : ℚ := 3602879701896397 / 36028797018963968

/-- Source: `this.corporateSignature = 'ALPHA-PI-OMEGA-2024'`. -/
def corporateSignature : String := "ALPHA-PI-OMEGA-2024"

/-- Source: `let apoSignature = this.corporateSignature.length` — the
fixed salt mixed into every signature. -/
def apoSignature : ℕ := corporateSignature.length

/-- The running state of the `calculateQuantumSignature` loop: the hash
accumulator and the vowel modulator, both JavaScript doubles. -/
structure QuantumState where
  quantumHash : Option ℚ
  consciousnessModulator : Option ℚ

/-- One iteration of the loop in `calculateQuantumSignature`:
`quantumHash ^= character` (ToInt32 coercion on both operands, bitwise
XOR), `quantumHash *= 0x01000193` (double multiplication),
the vowel test on the modulator, and the Solfeggio bonus addition
(double addition).  The multiplication and addition are *not* truncated
to 32 bits; only the XOR coerces. -/
def quantumStep (st : QuantumState) (c : ℕ) : QuantumState :=
  let ux : ℕ := (toUint32 st.quantumHash) ^^^ (c % 2 ^ 32)
  let h1 := fpMul (some ((int32OfBits ux : ℤ) : ℚ)) (some 16777619)
  let m1 := if isVowel c then fpMul st.consciousnessModulator (some dbl1618)
            else st.consciousnessModulator
  let h2 := fpAdd h1 (some ((solfeggioBonus (c % 9) : ℕ) : ℚ))
  ⟨h2, m1⟩

/-- The body of `calculateQuantumSignature(text)` past its guard,
on the list of UTF-16 code units.  Starts from the FNV offset basis
`0x811c9dc5` and modulator `1`, folds `quantumStep` over the characters,
and returns
`Math.abs((quantumHash * consciousnessModulator + apoSignature) >>> 0)`;
`Math.abs` is the identity on the non-negative ToUint32 result. -/
def quantumSignatureCore (text : List ℕ) : ℕ :=
  let st := text.foldl quantumStep ⟨some ((0x811c9dc5 : ℕ) : ℚ), some 1⟩
  toUint32 (fpAdd (fpMul st.quantumHash st.consciousnessModulator)
    (some (apoSignature : ℚ)))

/-- Source: `calculateQuantumSignature(text)` on a string input.  The
guard `if (!text || typeof text !== 'string') return 0` fires on the
empty string too, because `""` is falsy in JavaScript, so the empty
text returns `0` without reaching the loop. -/
def calculateQuantumSignature (text : List ℕ) : ℕ :=
  if text = [] then 0 else quantumSignatureCore text

/-- A JavaScript value at the public boundary of the engine: a string
(list of code units), `null`, `undefined`, a number, or a boolean. -/
inductive JSValue where
  | vstr (text : List ℕ)
  | vnull
  | vundef
  | vnum (q : ℚ)
  | vbool (b : Bool)

/-- Source: `calculateQuantumSignature` at the public boundary, over
arbitrary JavaScript values.  The guard
`if (!text || typeof text !== 'string') return 0` returns `0` for every
non-string value; string inputs (including the falsy empty string,
handled inside `calculateQuantumSignature`) go to the string case. -/
def calculateQuantumSignatureJS : JSValue → ℕ
  | .vstr text => calculateQuantumSignature text
  | _ => 0

/-- The `healing_analysis` object built by `offlineAnalysis` (and, with
other values, by the remote path). -/
structure HealingAnalysis where
  consciousness_frequency : ℕ
  healing_resonance : Option ℚ
  regenerative_score : Option ℚ
  trees_planted_equivalent : ℚ
  healing_grade : String
  intention_amplification : String
deriving DecidableEq

/-- The fixed `sustainability_impact` object of the offline path. -/
structure SustainabilityImpact where
  renewable_energy_used : String
  carbon_footprint : String
  consciousness_elevation : String
  planetary_healing_contribution : String
deriving DecidableEq

/-- The full analysis result object, shaped alike on both paths; the
`analysis_mode` field discriminates the path that produced it. -/
structure AnalysisResult where
  healing_analysis : HealingAnalysis
  sustainability_impact : SustainabilityImpact
  analysis_mode : String
  apo_signature : String
deriving DecidableEq

/-- Source: `offlineAnalysis(text, intention)` — the local fallback path.
The intermediate `consciousness = (signature % 100) / 100` is a binary64
division; `frequency = 400 + (signature % 200)` is exact (both operands
are small integers).  All derived products (`* 1000`, `* 0.8`) are
binary64 multiplications. -/
def offlineAnalysis (text : List ℕ) (intention : String) : AnalysisResult :=
  let signature := calculateQuantumSignature text
  let consciousness := fpDiv (some ((signature % 100 : ℕ) : ℚ)) (some 100)
  let frequency := 400 + signature % 200
  { healing_analysis :=
    { consciousness_frequency := frequency
      healing_resonance := fpMul consciousness (some 1000)
      regenerative_score := fpMul consciousness (some dbl08)
      trees_planted_equivalent := dbl01
      healing_grade :=
        if 500 < frequency then "A+" else if 450 < frequency then "A" else "B+"
      intention_amplification := intention }
    sustainability_impact :=
    { renewable_energy_used := "100% solar"
      carbon_footprint := "negative"
      consciousness_elevation := "positive"
      planetary_healing_contribution := "active" }
    analysis_mode := "offline"
    apo_signature := corporateSignature }

/-- The `MetricsSnapshot` shape served by the backend and by
`getDefaultMetrics`; each numeric field is a finite binary64 value. -/
structure MetricsSnapshot where
  total_analyses_performed : ℚ
  carbon_offset_generated : ℚ
  trees_planted_equivalent : ℚ
  renewable_energy_used : ℚ
  consciousness_elevation_events : ℚ
  planetary_healing_score : ℚ
deriving DecidableEq

/-- Source: `getDefaultMetrics()` — the fixed default snapshot; the
fractional literals are the exact binary64 values of `2591.4`, `123.4`
and `0.89`. -/
def getDefaultMetrics : MetricsSnapshot :=
  { total_analyses_performed := 1234
    carbon_offset_generated := 5698548864437453 / 2199023255552
    trees_planted_equivalent := 4341751515761869 / 35184372088832
    renewable_energy_used := 6787
    consciousness_elevation_events := 1234
    planetary_healing_score := 8016407336719483 / 9007199254740992 }

/-- The mutable state of the `APOQuantumLogos` instance that the claims
concern: the sticky offline flag, the append-only analysis history and
the stored metrics snapshot (`{}` at construction, modelled `none`). -/
structure AppState where
  isOfflineMode : Bool
  analysisHistory : List AnalysisResult
  sustainabilityMetrics : Option MetricsSnapshot
deriving DecidableEq

/-- The state right after the constructor runs: `isOfflineMode` is still
`undefined` (falsy, modelled `false`), the history is empty and no
snapshot has been stored. -/
def initialAppState : AppState :=
  { isOfflineMode := false, analysisHistory := [], sustainabilityMetrics := none }

/-- Outcome of one `fetch` of the healing-analysis endpoint: a parsed
response body, or any transport/HTTP/parse failure (all collapse into
the single `catch` in the source). -/
inductive FetchOutcome where
  | ok (result : AnalysisResult)
  | fail

/-- Outcome of the connectivity probe `fetch` in `checkAPIConnection`. -/
inductive ProbeOutcome where
  | ok
  | fail

/-- Outcome of the metrics `fetch` in `loadSustainabilityMetrics`. -/
inductive MetricsOutcome where
  | ok (metrics : MetricsSnapshot)
  | fail

/-- What `analyzeConsciousness` does for the caller: either the early
validation return (with the user-visible message passed to `showError`)
or a displayed result.  The function never throws: its body is wrapped
in `try`/`catch`/`finally`. -/
inductive AnalyzeOutcome where
  | invalidInput (message : String)
  | success (result : AnalysisResult)
deriving DecidableEq

/-- Source: `analyzeConsciousness()` — the orchestrator, as a function of
the remote outcome, the state and the request.  Returns the outcome, the
new state and the number of network calls issued.  Validation
(`if (!text)`) runs before anything else; the remote call happens only
when the offline flag is clear; any remote failure sets the flag
(sticky) and falls back to `offlineAnalysis`; the produced result is
appended to `analysisHistory`. -/
def analyzeConsciousness (remote : FetchOutcome) (st : AppState)
    (text : List ℕ) (intention : String) : AnalyzeOutcome × AppState × ℕ :=
  if text = [] then (.invalidInput "Please enter text for analysis", st, 0)
  else
    let step :
        AnalysisResult × AppState × ℕ :=
      if st.isOfflineMode then (offlineAnalysis text intention, st, 0)
      else
        match remote with
        | .ok r => (r, st, 1)
        | .fail =>
            (offlineAnalysis text intention,
             { st with isOfflineMode := true }, 1)
    (.success step.1,
     { step.2.1 with analysisHistory := step.2.1.analysisHistory ++ [step.1] },
     step.2.2)

/-- Source: `checkAPIConnection()` — the one-shot startup probe.  On
success it only updates the status display; on any failure it sets
`isOfflineMode = true` and reports offline mode. -/
def checkAPIConnection (outcome : ProbeOutcome) (st : AppState) : AppState :=
  match outcome with
  | .ok => st
  | .fail => { st with isOfflineMode := true }

/-- Source: `loadSustainabilityMetrics()` — the metrics refresh.  Returns
the new state and the snapshot handed to `displaySustainabilityMetrics`.
On success the stored `sustainabilityMetrics` is replaced wholesale and
displayed; on failure the *display* receives `getDefaultMetrics()` but
the stored state is left untouched. -/
def loadSustainabilityMetrics (outcome : MetricsOutcome) (st : AppState) :
    AppState × MetricsSnapshot :=
  match outcome with
  | .ok m => ({ st with sustainabilityMetrics := some m }, m)
  | .fail => (st, getDefaultMetrics)

/-- One transition of the client: a probe, a metrics refresh, or an
analysis request, each with an arbitrary environment outcome.  These are
the only operations in the source that write `isOfflineMode`,
`analysisHistory` or `sustainabilityMetrics` (the remaining methods only
touch the DOM). -/
inductive AppStep : AppState → AppState → Prop where
  | probe (o : ProbeOutcome) (st : AppState) :
      AppStep st (checkAPIConnection o st)
  | metricsRefresh (o : MetricsOutcome) (st : AppState) :
      AppStep st (loadSustainabilityMetrics o st).1
  | analyze (remote : FetchOutcome) (st : AppState)
      (text : List ℕ) (intention : String) :
      AppStep st (analyzeConsciousness remote st text intention).2.1

/-- The golden ratio constant exactly as the specification writes it
(`1.618033988749895`), as an exact rational. -/
def goldenRatioSpec : ℚ := 1618033988749895 / 1000000000000000

/-- Modelled from the specification, section 4.1 (for comparison with the
source algorithm): hash updates keep only the low 32 bits, unsigned, at
every step; a vowel multiplies the modulator by `1.618033988749895`; the
final signature is `abs32(round(hash * modulator) + salt)` with `abs32`
the unsigned 32-bit representation and `round` to the nearest integer. -/
def referenceSignatureSpec (text : List ℕ) (salt : ℕ) : ℕ :=
  let st := text.foldl
    (fun (p : ℕ × ℚ) c =>
      let h1 := ((p.1 ^^^ c) % 2 ^ 32 * 16777619) % 2 ^ 32
      let m1 := if isVowel c then p.2 * goldenRatioSpec else p.2
      ((h1 + solfeggioBonus (c % 9)) % 2 ^ 32, m1))
    ((2166136261 : ℕ), (1 : ℚ))
  ((⌊(st.1 : ℚ) * st.2 + 1/2⌋ + (salt : ℤ)) % (2 ^ 32 : ℤ)).toNat

/-- The loop of the amended reference algorithm: explicit recursion over
the characters, carrying the hash and the modulator as binary64 values.
Per character: signed 32-bit coercion at the XOR only, binary64
multiplication by the FNV prime, modulator times the binary64 value of
`1.618` on a vowel, binary64 addition of the Solfeggio bonus. -/
def amendedGo (h m : Option ℚ) : List ℕ → Option ℚ × Option ℚ
  | [] => (h, m)
  | c :: rest =>
      let u := toUint32 h ^^^ c % 2 ^ 32
      let h1 := fpMul (some ((int32OfBits u : ℤ) : ℚ)) (some 16777619)
      let m1 := if isVowel c then fpMul m (some dbl1618) else m
      amendedGo (fpAdd h1 (some ((solfeggioBonus (c % 9) : ℕ) : ℚ))) m1 rest

/-- The amended reference algorithm for claim C2: the specification's
algorithm adjusted to the JavaScript number semantics the source actually
has, with the final signature the ToUint32 image of
`hash * modulator + salt` (on which `Math.abs` is the identity). -/
def referenceSignatureAmended (text : List ℕ) (salt : ℕ) : ℕ :=
  let st := amendedGo (some ((0x811c9dc5 : ℕ) : ℚ)) (some 1) text
  toUint32 (fpAdd (fpMul st.1 st.2) (some (salt : ℚ)))

/-! ## Helper lemmas -/

/-- Folding `quantumStep` is the same computation as the explicit
recursion `amendedGo`. -/
lemma foldl_quantumStep_eq (l : List ℕ) : ∀ h m : Option ℚ,
    l.foldl quantumStep ⟨h, m⟩ =
      ⟨(amendedGo h m l).1, (amendedGo h m l).2⟩ := by
  induction l with
  | nil => intro h m; rfl
  | cons c rest ih =>
      intro h m
      rw [List.foldl_cons]
      exact ih _ _

/-- Every single transition preserves a set offline flag: no operation
of the client ever writes `isOfflineMode = false`. -/
lemma appStep_offline_sticky {s s' : AppState} (h : AppStep s s') :
    s.isOfflineMode = true → s'.isOfflineMode = true := by
  cases h with
  | probe o st =>
      cases o <;> simp [checkAPIConnection]
  | metricsRefresh o st =>
      cases o <;> simp [loadSustainabilityMetrics]
  | analyze remote st text intention =>
      intro hs
      unfold analyzeConsciousness
      by_cases ht : text = []
      · simp [ht, hs]
      · simp [ht, hs]

/-- Bounds of one `regenerative_score` table entry: for every residue
`k = signature % 100`, the binary64 value of `(k / 100) * 0.8` is a
finite number in `[0, 0.8]`. -/
lemma regen_entry_bounds : ∀ k, k < 100 →
    fpMul (fpDiv (some ((k : ℕ) : ℚ)) (some 100)) (some dbl08) ≠ none ∧
    0 ≤ (fpMul (fpDiv (some ((k : ℕ) : ℚ)) (some 100)) (some dbl08)).getD 0 ∧
    (fpMul (fpDiv (some ((k : ℕ) : ℚ)) (some 100)) (some dbl08)).getD 0 ≤ 4/5 := by
  decide

/-! ## Claims -/

/-- C1, counterexample: the program returns `0` for the empty string —
the guard `if (!text || ...)` fires because `""` is falsy — so
`signature("")` is not `2166136280`. -/
theorem c1_counterexample :
    calculateQuantumSignature [] = 0 ∧ (0 : ℕ) ≠ 2166136280 := by
  decide

/-- C1, amended: the guard returns `0` for the empty string (falsy), so
`signature("") = 0`; the computation past the guard at the empty text —
zero loop iterations, modulator staying `1`, every step exact in
binary64 — would yield exactly `2166136261 + salt = 2166136280` with the
salt `19` (the length of `ALPHA-PI-OMEGA-2024`), but the guard
short-circuits it. -/
theorem c1_empty_signature :
    calculateQuantumSignature [] = 0 ∧
    apoSignature = 19 ∧
    quantumSignatureCore [] = 2166136261 + apoSignature ∧
    quantumSignatureCore [] = 2166136280 := by
  decide

/-- C2, counterexample: on the one-character text `"a"` (code unit 97)
the source signature and the specification's section 4.1 reference
algorithm disagree: the code computes `838943728` (binary64 arithmetic,
modulator factor `1.618`), the reference computes `1895635735` (32-bit
wraparound at every step, modulator factor `1.618033988749895`). -/
theorem c2_counterexample :
    calculateQuantumSignature [97] = 838943728 ∧
    referenceSignatureSpec [97] apoSignature = 1895635735 ∧
    calculateQuantumSignature [97] ≠ referenceSignatureSpec [97] apoSignature := by
  decide

/-- C2, amended: for every text the source signature equals `0` when the
text is empty (the falsy guard), and otherwise the reference algorithm
adjusted to the code's JavaScript number semantics — signed 32-bit
coercion at the XOR only (no unsigned wrap after multiply or add),
binary64 rounding of every multiply and add, modulator factor the
binary64 value of `1.618`, and final value
`ToUint32(hash * modulator + salt)`. -/
theorem c2_amended_algorithm :
    ∀ text : List ℕ,
      calculateQuantumSignature text =
        if text = [] then 0 else referenceSignatureAmended text apoSignature := by
  intro text
  cases text with
  | nil => rfl
  | cons c rest =>
      show quantumSignatureCore (c :: rest) = referenceSignatureAmended (c :: rest) apoSignature
      unfold quantumSignatureCore referenceSignatureAmended
      rw [foldl_quantumStep_eq]

/-- C3: with a remote endpoint that always fails, `analyzeConsciousness`
on any valid (non-empty) text returns normally with exactly the offline
(local Signature Engine) result, whose mode tag is `offline`. -/
theorem c3_fallback_local :
    ∀ (st : AppState) (text : List ℕ) (intention : String), text ≠ [] →
      (analyzeConsciousness FetchOutcome.fail st text intention).1
          = AnalyzeOutcome.success (offlineAnalysis text intention) ∧
      (offlineAnalysis text intention).analysis_mode = "offline" := by
  intro st text intention h
  refine ⟨?_, rfl⟩
  unfold analyzeConsciousness
  by_cases hst : st.isOfflineMode <;> simp [h, hst]

/-- Witness for C3 at the concrete request `"a"` from the initial
state. -/
theorem c3_fallback_local_witness :
    ([97] : List ℕ) ≠ [] ∧
    ((analyzeConsciousness FetchOutcome.fail initialAppState [97] "healing").1
        = AnalyzeOutcome.success (offlineAnalysis [97] "healing") ∧
      (offlineAnalysis [97] "healing").analysis_mode = "offline") :=
  ⟨by decide, c3_fallback_local initialAppState [97] "healing" (by decide)⟩

/-- C4, counterexample: on the text `"tm"` (code units 116, 109) the
signature is `2068470799`, so `signature % 100 = 99` and the binary64
regenerative score is `fl(fl(99/100) * fl(0.8))`, which exceeds `0.79` —
the claimed range `[0, 0.79]` is violated. -/
theorem c4_counterexample :
    calculateQuantumSignature [116, 109] = 2068470799 ∧
    (offlineAnalysis [116, 109] "healing").healing_analysis.regenerative_score
        = some (3566850904877433 / 4503599627370496) ∧
    ¬ ((3566850904877433 : ℚ) / 4503599627370496 ≤ 79/100) := by
  decide

/-- C4, amended: for every text, `frequencyHz` lies in `[400, 599]` and
the regenerative score is a finite binary64 value in `[0, 0.8]` (the
range the data model states; the attained maximum is
`fl(fl(0.99) * fl(0.8)) = 3566850904877433 / 4503599627370496 ≈ 0.792`). -/
theorem c4_amended_ranges :
    ∀ (text : List ℕ) (intention : String),
      400 ≤ (offlineAnalysis text intention).healing_analysis.consciousness_frequency ∧
      (offlineAnalysis text intention).healing_analysis.consciousness_frequency ≤ 599 ∧
      (offlineAnalysis text intention).healing_analysis.regenerative_score ≠ none ∧
      0 ≤ ((offlineAnalysis text intention).healing_analysis.regenerative_score).getD 0 ∧
      ((offlineAnalysis text intention).healing_analysis.regenerative_score).getD 0 ≤ 4/5 := by
  intro text intention
  have hf : calculateQuantumSignature text % 200 < 200 :=
    Nat.mod_lt _ (by norm_num)
  have hk : calculateQuantumSignature text % 100 < 100 :=
    Nat.mod_lt _ (by norm_num)
  have h := regen_entry_bounds _ hk
  exact ⟨by simp [offlineAnalysis], by simp [offlineAnalysis]; omega,
    h.1, h.2.1, h.2.2⟩

/-- C5: on the local path the derived values are consistent with the
signature: `frequencyHz = 400 + signature % 200`, the intermediate
consciousness is the binary64 division `(signature % 100) / 100` (from
which resonance is `consciousness * 1000` and the regenerative score
`consciousness * 0.8`), and the grade is `A+` above 500 Hz, `A` above
450 Hz, `B+` otherwise. -/
theorem c5_derived_consistency :
    ∀ (text : List ℕ) (intention : String),
      (offlineAnalysis text intention).healing_analysis.consciousness_frequency
          = 400 + calculateQuantumSignature text % 200 ∧
      (offlineAnalysis text intention).healing_analysis.healing_resonance
          = fpMul (fpDiv (some ((calculateQuantumSignature text % 100 : ℕ) : ℚ))
              (some 100)) (some 1000) ∧
      (offlineAnalysis text intention).healing_analysis.regenerative_score
          = fpMul (fpDiv (some ((calculateQuantumSignature text % 100 : ℕ) : ℚ))
              (some 100)) (some dbl08) ∧
      (offlineAnalysis text intention).healing_analysis.healing_grade
          = (if 500 < (offlineAnalysis text intention).healing_analysis.consciousness_frequency
             then "A+"
             else if 450 < (offlineAnalysis text intention).healing_analysis.consciousness_frequency
             then "A" else "B+") :=
  fun _ _ => ⟨rfl, rfl, rfl, rfl⟩

/-- C6: an empty text fails validation before anything else happens —
the user-visible error message is shown and no network call is made. -/
theorem c6_empty_text_validation :
    ∀ (remote : FetchOutcome) (st : AppState) (intention : String),
      (analyzeConsciousness remote st [] intention).1
          = AnalyzeOutcome.invalidInput "Please enter text for analysis" ∧
      (analyzeConsciousness remote st [] intention).2.2 = 0 :=
  fun _ _ _ => ⟨rfl, rfl⟩

/-- C7: the offline flag is one-way sticky.  Along every reachable
execution (reflexive-transitive closure of the client's transitions) a
set flag is never cleared; a failed startup probe sets it; and a failed
remote call during analysis of a valid text leaves it set. -/
theorem c7_offline_one_way :
    (∀ s s' : AppState, Relation.ReflTransGen AppStep s s' →
        s.isOfflineMode = true → s'.isOfflineMode = true) ∧
    (∀ st : AppState, (checkAPIConnection ProbeOutcome.fail st).isOfflineMode = true) ∧
    (∀ (st : AppState) (text : List ℕ) (intention : String), text ≠ [] →
        (analyzeConsciousness FetchOutcome.fail st text intention).2.1.isOfflineMode
          = true) := by
  refine ⟨?_, fun _ => rfl, ?_⟩
  · intro s s' h
    induction h with
    | refl => exact id
    | tail _ step ih => exact fun hs => appStep_offline_sticky step (ih hs)
  · intro st text intention h
    unfold analyzeConsciousness
    by_cases hst : st.isOfflineMode <;> simp [h, hst]

/-- Witness for C7: the stickiness applied along the empty execution
from a concrete offline state, the probe downgrade and the analysis
downgrade at concrete inputs. -/
theorem c7_offline_one_way_witness :
    ({ initialAppState with isOfflineMode := true } : AppState).isOfflineMode = true ∧
    (checkAPIConnection ProbeOutcome.fail initialAppState).isOfflineMode = true ∧
    (analyzeConsciousness FetchOutcome.fail initialAppState [97] "healing").2.1.isOfflineMode
      = true :=
  ⟨c7_offline_one_way.1 { initialAppState with isOfflineMode := true }
      { initialAppState with isOfflineMode := true } Relation.ReflTransGen.refl rfl,
   c7_offline_one_way.2.1 initialAppState,
   c7_offline_one_way.2.2 initialAppState [97] "healing" (by decide)⟩

/-- C8, counterexample: a failed refresh does not replace the stored
snapshot.  From a state holding a previous snapshot different from the
default, the state after a failed `loadSustainabilityMetrics` still holds
that previous snapshot, not the default. -/
theorem c8_counterexample :
    (loadSustainabilityMetrics MetricsOutcome.fail
        { isOfflineMode := false, analysisHistory := [],
          sustainabilityMetrics := some ⟨1, 0, 0, 0, 0, 0⟩ }).1.sustainabilityMetrics
      = some ⟨1, 0, 0, 0, 0, 0⟩ ∧
    some (⟨1, 0, 0, 0, 0, 0⟩ : MetricsSnapshot) ≠ some getDefaultMetrics := by
  exact ⟨rfl, by decide⟩

/-- C8, amended: on failure the fixed default snapshot is substituted
for display only, while the stored metrics state retains its previous
value; only a successful refresh replaces the stored snapshot
(wholesale, with the fetched one). -/
theorem c8_amended_retention :
    (∀ st : AppState,
        loadSustainabilityMetrics MetricsOutcome.fail st = (st, getDefaultMetrics)) ∧
    (∀ (st : AppState) (m : MetricsSnapshot),
        (loadSustainabilityMetrics (MetricsOutcome.ok m) st).1.sustainabilityMetrics
            = some m ∧
        (loadSustainabilityMetrics (MetricsOutcome.ok m) st).2 = m) :=
  ⟨fun _ => rfl, fun _ _ => ⟨rfl, rfl⟩⟩

/-- C9: the engine's guard makes it total and fail-soft at the public
boundary: `null`, `undefined`, numbers, booleans and the empty string
all return `0` (and, the embedding being a total function, no error is
raised). -/
theorem c9_guard_total :
    calculateQuantumSignatureJS JSValue.vnull = 0 ∧
    calculateQuantumSignatureJS JSValue.vundef = 0 ∧
    (∀ q : ℚ, calculateQuantumSignatureJS (JSValue.vnum q) = 0) ∧
    (∀ b : Bool, calculateQuantumSignatureJS (JSValue.vbool b) = 0) ∧
    calculateQuantumSignatureJS (JSValue.vstr []) = 0 :=
  ⟨rfl, rfl, fun _ => rfl, fun _ => rfl, rfl⟩

/-- C10: validation failure is atomic: on an empty text the orchestrator
returns with the state exactly as it was (history, offline flag and
stored metrics untouched) and no network call issued. -/
theorem c10_validation_atomic :
    ∀ (remote : FetchOutcome) (st : AppState) (intention : String),
      (analyzeConsciousness remote st [] intention).2.1 = st ∧
      (analyzeConsciousness remote st [] intention).2.2 = 0 :=
  fun _ _ _ => ⟨rfl, rfl⟩

end APOQuantumLogos
